import Mathlib

/-!
Shallow embedding of the TinyTuya network scanner (`tinytuya/scanner.py`),
centred on the `devices()` discovery loop (lines 168-412): the dual-port UDP
broadcast listener with its two silence counters `count` (port 6666, dialect A,
protocol version 3.1) and `counts` (port 6667, dialect B), the device registry
keyed by IP, the identity lookup `tuyaLookup`, and the status-poll
orchestration.

External collaborators (socket receive, `tinytuya.decrypt_udp`, JSON decoding,
`OutletDevice(...).status()`) are modelled as oracle inputs: each loop
iteration consumes one `RecvOutcome` describing what the serviced socket
produced, and each datagram carries the (abstracted) decode result and the
status-poll reply the collaborator would give if asked.
-/

namespace TinyTuyaScan

/-- Decode pipeline outcome for one datagram (scanner.py lines 261-275).
`noJson` means `data[20:-8]` failed to decrypt/decode/`json.loads` into an
object; `json j` means a JSON object was obtained whose relevant fields are
those of `j` (a missing field makes the corresponding `result[...]` lookup
raise, which the scanner catches). -/
structure UdpJson where
  ip : Option String
  gwId : Option String
  productKey : Option String
  version : Option String
deriving Repr, DecidableEq

/-- Result of the decrypt/decode attempt on one received datagram. -/
inductive ParseOutcome
  | noJson
  | json (j : UdpJson)
deriving Repr, DecidableEq

/-- Reply of the external device-session collaborator `d.status()`
(spec section 6): a mapping containing `dps`, a mapping containing `Error`
(and no `dps`), a mapping with neither, or a raised exception. The string in
`withDps` stands for the whole structured mapping that the scanner attaches. -/
inductive StatusReply
  | withDps (dps : String)
  | errorResp (emsg : String)
  | other
  | raises
deriving Repr, DecidableEq

/-- Outcome of one `recvfrom` call on the socket serviced this iteration
(scanner.py lines 234-257): a timeout (or any other receive exception), a
`KeyboardInterrupt`, or a datagram from `srcIp` (= `addr[0]`). -/
inductive RecvOutcome
  | timeout
  | interrupt
  | packet (srcIp : String) (parse : ParseOutcome) (reply : StatusReply)
deriving Repr, DecidableEq

/-- One record of the `devices.json` identity file (spec section 3,
KnownIdentity): `mac` is optional, matching the `"mac" in i` test. -/
structure KnownIdentity where
  id : String
  name : String
  key : String
  mac : Option String
deriving Repr, DecidableEq

/-- Lookup Tuya device info by id returning (name, key, mac)
(scanner.py lines 107-114): first record whose `id` matches wins;
no match yields three empty strings. -/
def tuyaLookup (tuyadevices : List KnownIdentity) (deviceid : String) :
    String × String × String :=
  match tuyadevices.find? (fun i => i.id == deviceid) with
  | some i => (i.name, i.key, i.mac.getD "")
  | none => ("", "", "")

/-- One entry of the `devices` result dictionary. For a Valid payload the
entry is the parsed broadcast (ip/gwId/productKey/version present); for an
Unknown payload it is `{"ip": ip}` alone (line 279). The remaining fields
are added later by `devices[ip][...] = ...` assignments (lines 346-390). -/
structure DeviceEntry where
  ip : String
  gwId : Option String
  productKey : Option String
  version : Option String
  name : Option String := none
  key : Option String := none
  mac : Option String := none
  dps : Option String := none
  err : Option String := none
deriving Repr, DecidableEq

/-- The registry is the insertion-ordered dictionary `devices`, keyed by IP. -/
abbrev Registry := List (String × DeviceEntry)

/-- Modelled from the spec: `tinytuya.appenddevice(result, devices)` is called
at line 284 but its definition is not among the scanned sources. Per the
spec's Device Registry contract (section 4.3): if no entry exists for the
candidate's ip, insert one and report it new; if one exists, leave the
registry unchanged (first-seen values win). The Boolean follows the call
site's convention: `False` means the device is new. -/
def appenddevice (newdevice : DeviceEntry) (devices : Registry) :
    Bool × Registry :=
  match devices.find? (fun p => p.1 == newdevice.ip) with
  | some _ => (true, devices)
  | none => (false, devices ++ [(newdevice.ip, newdevice)])

/-- Modelled from the spec: `tinytuya.floor` (lines 288, 290) is not among the
scanned sources. The spec (section 3, RetryBudget) says the novelty decrement
is "floored at a design-chosen minimum"; the natural minimum for a counter
that starts at zero is zero. -/
def tfloor (x : Int) : Int :=
  if x < 0 then 0 else x

/-- The `devices[ip][field] = value` dictionary mutation: update the entry
stored under key `ip`, leave every other entry alone. -/
def updateEntry (devices : Registry) (ip : String)
    (f : DeviceEntry → DeviceEntry) : Registry :=
  devices.map (fun p => if p.1 == ip then (p.1, f p.2) else p)

/-- Local variables of the loop body after lines 258-281: `ip`, `gwId`,
`productKey`, `version` as left by the sequential extraction, and whether the
payload was classified Valid (`note = "Valid"`) or Unknown. -/
structure PacketVars where
  ip : String
  gwId : String
  productKey : String
  version : String
  valid : Bool
deriving Repr, DecidableEq

/-- Payload Interpreter (scanner.py lines 258-281). Variables start as
`ip = addr[0]` and empty strings (line 259); the `try` block then assigns
`ip`, `gwId`, `productKey`, `version` from the decoded object in that order,
and any failure jumps to the `except` branch keeping the assignments made so
far, with the payload classified Unknown. -/
def interpret (srcIp : String) : ParseOutcome → PacketVars
  | .noJson => ⟨srcIp, "", "", "", false⟩
  | .json j =>
    match j.ip with
    | none => ⟨srcIp, "", "", "", false⟩
    | some pip =>
      match j.gwId with
      | none => ⟨pip, "", "", "", false⟩
      | some g =>
        match j.productKey with
        | none => ⟨pip, g, "", "", false⟩
        | some pk =>
          match j.version with
          | none => ⟨pip, g, pk, "", false⟩
          | some v => ⟨pip, g, pk, v, true⟩

/-- The `result` dictionary handed to `appenddevice`: the full parsed
broadcast when Valid, `{"ip": ip}` alone when Unknown (line 279). -/
def mkEntry (v : PacketVars) : DeviceEntry :=
  if v.valid then
    { ip := v.ip, gwId := some v.gwId, productKey := some v.productKey,
      version := some v.version }
  else
    { ip := v.ip, gwId := none, productKey := none, version := none }

/-- Registry key a datagram is filed under: the interpreter's final `ip`
variable (payload-declared on successful extraction, sender address on
decode failure). -/
def regKey (srcIp : String) (parse : ParseOutcome) : String :=
  (interpret srcIp parse).ip

/-- Novelty reward (scanner.py lines 286-290): back off the silence counter
of the dialect named by the `version` field, floored. -/
def noveltyCounters (count counts : Int) (version : String) : Int × Int :=
  if version == "3.1" then (tfloor (count - 1), counts)
  else (count, tfloor (counts - 1))

/-- Duplicate-broadcast penalty (scanner.py lines 391-395): tick the silence
counter of the dialect named by the `version` field. -/
def dupCounters (count counts : Int) (version : String) : Int × Int :=
  if version == "3.1" then (count + 1, counts)
  else (count, counts + 1)

/-- One record of the external status-poll collaborator being invoked:
`OutletDevice(gwId, ip, dkey)` with `set_version(vers)` followed by
`.status()` (lines 331-333, 354-356). -/
structure PollCall where
  ip : String
  gwId : String
  dkey : String
  vers : String
deriving Repr, DecidableEq

/-- Effect of one `d.status()` invocation on the registry (lines 334-350,
357-373, 382-385): a mapping containing `dps` is attached whole under the
entry's `dps` field; any other structured reply, and any raised exception,
sets `devices[ip]["err"] = "Unable to poll"`. The call is logged. -/
def pollUpdate (devices : Registry) (polls : List PollCall)
    (ip gwId dkey vers : String) (reply : StatusReply) :
    Registry × List PollCall :=
  let call : PollCall := ⟨ip, gwId, dkey, vers⟩
  match reply with
  | .withDps s =>
      (updateEntry devices ip (fun e => { e with dps := some s }),
       polls ++ [call])
  | .errorResp _ =>
      (updateEntry devices ip (fun e => { e with err := some "Unable to poll" }),
       polls ++ [call])
  | .other =>
      (updateEntry devices ip (fun e => { e with err := some "Unable to poll" }),
       polls ++ [call])
  | .raises =>
      (updateEntry devices ip (fun e => { e with err := some "Unable to poll" }),
       polls ++ [call])

/-- Configuration of one `devices()` invocation: the retry budget, the `poll`
flag, whether `devices.json` was loaded (`havekeys`) and its contents, and
the IP-to-MAC table `ip_list` produced by the optional force scan. -/
structure ScanConfig where
  maxretry : Int
  poll : Bool
  havekeys : Bool
  tuyadevices : List KnownIdentity
  ip_list : List (String × String)
deriving Repr, DecidableEq

/-- Mutable state of the listening loop: the registry, the two silence
counters, and (model instrumentation) the log of poll-collaborator calls. -/
structure ScanState where
  devices : Registry
  count : Int
  counts : Int
  polls : List PollCall
deriving Repr, DecidableEq

/-- State at loop entry (lines 168-170): empty registry, both counters zero. -/
def initState : ScanState :=
  ⟨[], 0, 0, []⟩

/-- The two listening sockets / protocol dialects. -/
inductive Port
  | a
  | b
deriving Repr, DecidableEq

/-- Socket serviced this iteration (line 234): `client` (port 6666,
dialect A) when `count <= counts`, else `clients` (port 6667, dialect B). -/
def recvPort (st : ScanState) : Port :=
  if st.count ≤ st.counts then .a else .b

/-- Timeout handling (lines 242-245, 254-257): the serviced dialect's silence
counter ticks and the loop continues. -/
def timeoutStep (st : ScanState) : ScanState :=
  match recvPort st with
  | .a => { st with count := st.count + 1 }
  | .b => { st with counts := st.counts + 1 }

/-- Identity resolution at lines 292-297: `tuyaLookup(gwId)` when
`devices.json` was loaded, empty strings otherwise. -/
def identityLookup (cfg : ScanConfig) (gwId : String) :
    String × String × String :=
  if cfg.havekeys then tuyaLookup cfg.tuyadevices gwId else ("", "", "")

/-- Force-scan table lookup, `ip_list[ip]` guarded by `ip in ip_list`. -/
def lookupIp (ipList : List (String × String)) (ip : String) : Option String :=
  (ipList.find? (fun p => p.1 == ip)).map Prod.snd

/-- MAC merge at lines 298-301: the identity-file MAC wins; if it is empty
and the force-scan table knows the IP, use that; otherwise empty. -/
def macResolve (cfg : ScanConfig) (ip mac2 : String) : String :=
  if mac2 == "" && (lookupIp cfg.ip_list ip).isSome then
    (lookupIp cfg.ip_list ip).getD ""
  else mac2

/-- Poll orchestration for a new device (scanner.py lines 326-385): with
polling enabled, a version-3.1 device is polled unconditionally (no key
required), any other version is polled only when the resolved key is
non-empty; otherwise the registry and poll log are left as they are (only a
verbose message is printed). -/
def pollPhase (cfg : ScanConfig) (d : Registry) (polls : List PollCall)
    (vars : PacketVars) (dkey : String) (reply : StatusReply) :
    Registry × List PollCall :=
  if cfg.poll then
    if vars.version == "3.1" then
      pollUpdate d polls vars.ip vars.gwId dkey "3.1" reply
    else if dkey != "" then
      pollUpdate d polls vars.ip vars.gwId dkey "3.3" reply
    else (d, polls)
  else (d, polls)

/-- Name/key attachment (scanner.py lines 386-388): only when the resolved
name is non-empty are both the name and the key written to the entry. -/
def nameAttach (d : Registry) (ip dname dkey : String) : Registry :=
  if dname != "" then
    updateEntry d ip (fun e => { e with name := some dname, key := some dkey })
  else d

/-- MAC attachment (scanner.py lines 389-390). -/
def macAttach (d : Registry) (ip mac : String) : Registry :=
  if mac != "" then
    updateEntry d ip (fun e => { e with mac := some mac })
  else d

/-- New-device branch of the loop body (scanner.py lines 286-390), entered
when `appenddevice` reported the entry as new (already inserted in
`st.devices`): back off the dialect's counter, resolve name/key/mac, run the
poll orchestration, then attach name/key and mac when non-empty. -/
def newDeviceStep (cfg : ScanConfig) (st : ScanState) (vars : PacketVars)
    (reply : StatusReply) : ScanState :=
  let cc := noveltyCounters st.count st.counts vars.version
  let idinfo := identityLookup cfg vars.gwId
  let dp := pollPhase cfg st.devices st.polls vars idinfo.2.1 reply
  let d3 := nameAttach dp.1 vars.ip idinfo.1 idinfo.2.1
  let d4 := macAttach d3 vars.ip (macResolve cfg vars.ip idinfo.2.2)
  { devices := d4, count := cc.1, counts := cc.2, polls := dp.2 }

/-- Datagram handling (scanner.py lines 258-395): interpret the payload, file
it with `appenddevice`, then either the duplicate branch (lines 391-395) or
the new-device branch. Returns whether the device was new together with the
successor state. -/
def processPacket (cfg : ScanConfig) (st : ScanState) (srcIp : String)
    (parse : ParseOutcome) (reply : StatusReply) : Bool × ScanState :=
  let vars := interpret srcIp parse
  let res := appenddevice (mkEntry vars) st.devices
  if res.1 then
    let cc := dupCounters st.count st.counts vars.version
    (false, { st with devices := res.2, count := cc.1, counts := cc.2 })
  else
    (true, newDeviceStep cfg { st with devices := res.2 } vars reply)

/-- How one invocation of the listening loop ended. `budget` is the normal
`while` exit (sum of counters exceeded `maxretry`, lines 397-412 run);
`userBreak` is the `exit()` call on `KeyboardInterrupt` (lines 241, 253),
which leaves the function without reaching lines 410-412; `starved` is a
model artifact: the supplied outcome sequence ran out while the loop still
wanted to receive. -/
inductive ScanExit
  | budget
  | userBreak
  | starved
deriving Repr, DecidableEq

/-- Result of running the listening loop: how it exited, the state at exit,
how many receive attempts were made (`consumed`), and how many of them
discovered a new device (`novel`). -/
structure RunStats where
  exitKind : ScanExit
  final : ScanState
  consumed : Nat
  novel : Nat
deriving Repr, DecidableEq

/-- The listening loop (scanner.py lines 226-395): while
`count + counts <= maxretry`, service the preferred socket and handle its
outcome; each received datagram is processed by `processPacket`, each timeout
by `timeoutStep`, and a `KeyboardInterrupt` leaves immediately via `exit()`. -/
def scanLoop (cfg : ScanConfig) (st : ScanState) :
    List RecvOutcome → RunStats
  | [] =>
    if st.count + st.counts ≤ cfg.maxretry then ⟨.starved, st, 0, 0⟩
    else ⟨.budget, st, 0, 0⟩
  | ev :: rest =>
    if st.count + st.counts ≤ cfg.maxretry then
      match ev with
      | .interrupt => ⟨.userBreak, st, 1, 0⟩
      | .timeout =>
        let r := scanLoop cfg (timeoutStep st) rest
        ⟨r.exitKind, r.final, r.consumed + 1, r.novel⟩
      | .packet srcIp parse reply =>
        let pr := processPacket cfg st srcIp parse reply
        let r := scanLoop cfg pr.2 rest
        ⟨r.exitKind, r.final, r.consumed + 1,
         r.novel + (if pr.1 then 1 else 0)⟩
    else ⟨.budget, st, 0, 0⟩

/-- Registry well-formedness carried through the loop: registry keys are
pairwise distinct, polled IPs are pairwise distinct, and every polled IP is a
registry key. -/
def RegInv (st : ScanState) : Prop :=
  (st.devices.map Prod.fst).Nodup ∧
  (st.polls.map PollCall.ip).Nodup ∧
  ∀ i ∈ st.polls.map PollCall.ip, i ∈ st.devices.map Prod.fst

/-- What the caller of `devices()` receives: the registry on normal loop
exit (line 412); nothing when `exit()` terminated the process, and nothing
in the model-artifact starved case. -/
def returnedDevices (r : RunStats) : Option Registry :=
  match r.exitKind with
  | .budget => some r.final.devices
  | _ => none

/-- Whether the function's own socket teardown (lines 410-411) ran: only on
the normal `while` exit; `exit()` bypasses it. -/
def socketsClosed (r : RunStats) : Bool :=
  match r.exitKind with
  | .budget => true
  | _ => false

/-- Sample registry entry for concrete instantiations: what a Valid 3.1
broadcast from `10.0.0.9` looks like after insertion. -/
def sampleEntry : DeviceEntry :=
  { ip := "10.0.0.9", gwId := some "g9", productKey := some "p9",
    version := some "3.1" }

/-! ### Basic lemmas about the registry operations -/

theorem mkEntry_ip (v : PacketVars) : (mkEntry v).ip = v.ip := by
  unfold mkEntry; split <;> rfl

theorem mkEntry_plain (v : PacketVars) :
    (mkEntry v).name = none ∧ (mkEntry v).key = none ∧ (mkEntry v).mac = none ∧
    (mkEntry v).dps = none ∧ (mkEntry v).err = none := by
  unfold mkEntry; split <;> exact ⟨rfl, rfl, rfl, rfl, rfl⟩

theorem updateEntry_keys (d : Registry) (ip : String)
    (f : DeviceEntry → DeviceEntry) :
    (updateEntry d ip f).map Prod.fst = d.map Prod.fst := by
  unfold updateEntry
  rw [List.map_map]
  refine List.map_congr_left (fun p _ => ?_)
  by_cases h : p.1 = ip <;> simp [h]

theorem updateEntry_mem_ne (d : Registry) (ip k : String)
    (f : DeviceEntry → DeviceEntry) (e : DeviceEntry) (h : k ≠ ip) :
    (k, e) ∈ updateEntry d ip f ↔ (k, e) ∈ d := by
  unfold updateEntry
  constructor
  · intro hm
    rcases List.mem_map.1 hm with ⟨q, hq, heq⟩
    by_cases hc : q.1 == ip
    · rw [if_pos hc] at heq
      injection heq with h1 h2
      exact absurd (by rw [← h1]; exact beq_iff_eq.1 hc) h
    · rw [if_neg hc] at heq
      exact heq ▸ hq
  · intro hm
    refine List.mem_map.2 ⟨(k, e), hm, ?_⟩
    have hc : ((k, e).1 == ip) = false := beq_eq_false_iff_ne.2 h
    rw [if_neg (by simp [hc])]

theorem updateEntry_mem_self (d : Registry) (ip : String)
    (f : DeviceEntry → DeviceEntry) (e : DeviceEntry) (h : (ip, e) ∈ d) :
    (ip, f e) ∈ updateEntry d ip f := by
  unfold updateEntry
  exact List.mem_map.2 ⟨(ip, e), h, by simp⟩

theorem appenddevice_seen_iff (e : DeviceEntry) (d : Registry) :
    (appenddevice e d).1 = true ↔ e.ip ∈ d.map Prod.fst := by
  rcases h : d.find? (fun p => p.1 == e.ip) with _ | q
  · simp only [appenddevice, h, Bool.false_eq_true, false_iff]
    rw [List.find?_eq_none] at h
    intro hm
    rcases List.mem_map.1 hm with ⟨p, hp, hfst⟩
    exact h p hp (by simp [hfst])
  · simp only [appenddevice, h, true_iff]
    have hq := List.mem_of_find?_eq_some h
    have hqq := List.find?_some h
    exact List.mem_map.2 ⟨q, hq, beq_iff_eq.1 hqq⟩

theorem appenddevice_new_iff (e : DeviceEntry) (d : Registry) :
    (appenddevice e d).1 = false ↔ e.ip ∉ d.map Prod.fst := by
  rw [← appenddevice_seen_iff]
  constructor
  · intro h hc; rw [hc] at h; cases h
  · intro h; cases hb : (appenddevice e d).1
    · rfl
    · exact absurd hb h

theorem appenddevice_dup (e : DeviceEntry) (d : Registry)
    (h : (appenddevice e d).1 = true) : (appenddevice e d).2 = d := by
  rcases hf : d.find? (fun p => p.1 == e.ip) with _ | q
  · simp [appenddevice, hf] at h
  · simp only [appenddevice, hf]

theorem appenddevice_new (e : DeviceEntry) (d : Registry)
    (h : (appenddevice e d).1 = false) :
    (appenddevice e d).2 = d ++ [(e.ip, e)] := by
  rcases hf : d.find? (fun p => p.1 == e.ip) with _ | q
  · simp only [appenddevice, hf]
  · simp [appenddevice, hf] at h

/-! ### Lemmas about the silence counters -/

theorem tfloor_nonneg (x : Int) : 0 ≤ tfloor x := by
  unfold tfloor; split <;> omega

theorem le_tfloor (x : Int) : x ≤ tfloor x := by
  unfold tfloor; split <;> omega

theorem noveltyCounters_spec (c s : Int) (v : String) (hc : 0 ≤ c) (hs : 0 ≤ s) :
    (noveltyCounters c s v).1 + (noveltyCounters c s v).2 ≤ c + s ∧
    c + s - 1 ≤ (noveltyCounters c s v).1 + (noveltyCounters c s v).2 ∧
    0 ≤ (noveltyCounters c s v).1 ∧ 0 ≤ (noveltyCounters c s v).2 := by
  unfold noveltyCounters tfloor
  split <;> split <;> simp <;> omega

theorem dupCounters_spec (c s : Int) (v : String) :
    (dupCounters c s v).1 + (dupCounters c s v).2 = c + s + 1 ∧
    c ≤ (dupCounters c s v).1 ∧ s ≤ (dupCounters c s v).2 := by
  unfold dupCounters
  split <;> simp <;> omega

/-! ### Structural lemmas about single loop steps -/

theorem pollUpdate_keys (d : Registry) (polls : List PollCall)
    (ip gwId dkey vers : String) (reply : StatusReply) :
    (pollUpdate d polls ip gwId dkey vers reply).1.map Prod.fst =
      d.map Prod.fst := by
  cases reply <;> simp [pollUpdate, updateEntry_keys]

theorem pollUpdate_polls (d : Registry) (polls : List PollCall)
    (ip gwId dkey vers : String) (reply : StatusReply) :
    (pollUpdate d polls ip gwId dkey vers reply).2 =
      polls ++ [⟨ip, gwId, dkey, vers⟩] := by
  cases reply <;> rfl

theorem timeoutStep_state (st : ScanState) :
    (timeoutStep st).devices = st.devices ∧ (timeoutStep st).polls = st.polls ∧
    (timeoutStep st).count + (timeoutStep st).counts =
      st.count + st.counts + 1 ∧
    st.count ≤ (timeoutStep st).count ∧ st.counts ≤ (timeoutStep st).counts := by
  unfold timeoutStep recvPort
  by_cases h : st.count ≤ st.counts <;> simp [h] <;> omega

theorem newDeviceStep_counters (cfg : ScanConfig) (st : ScanState)
    (vars : PacketVars) (reply : StatusReply) :
    (newDeviceStep cfg st vars reply).count =
      (noveltyCounters st.count st.counts vars.version).1 ∧
    (newDeviceStep cfg st vars reply).counts =
      (noveltyCounters st.count st.counts vars.version).2 :=
  ⟨rfl, rfl⟩

theorem pollPhase_keys (cfg : ScanConfig) (d : Registry)
    (polls : List PollCall) (vars : PacketVars) (dkey : String)
    (reply : StatusReply) :
    (pollPhase cfg d polls vars dkey reply).1.map Prod.fst = d.map Prod.fst := by
  unfold pollPhase
  by_cases hp : cfg.poll <;>
    by_cases hv : (vars.version == "3.1") = true <;>
    by_cases hk : (dkey != "") = true <;>
    simp [hp, hv, hk, pollUpdate_keys]

theorem pollPhase_polls_or (cfg : ScanConfig) (d : Registry)
    (polls : List PollCall) (vars : PacketVars) (dkey : String)
    (reply : StatusReply) :
    (pollPhase cfg d polls vars dkey reply).2 = polls ∨
    ∃ c : PollCall, c.ip = vars.ip ∧
      (pollPhase cfg d polls vars dkey reply).2 = polls ++ [c] := by
  unfold pollPhase
  by_cases hp : cfg.poll <;>
    by_cases hv : (vars.version == "3.1") = true <;>
    by_cases hk : (dkey != "") = true <;>
    simp [hp, hv, hk, pollUpdate_polls]

theorem nameAttach_keys (d : Registry) (ip dname dkey : String) :
    (nameAttach d ip dname dkey).map Prod.fst = d.map Prod.fst := by
  unfold nameAttach
  by_cases hn : (dname != "") = true <;> simp [hn, updateEntry_keys]

theorem macAttach_keys (d : Registry) (ip mac : String) :
    (macAttach d ip mac).map Prod.fst = d.map Prod.fst := by
  unfold macAttach
  by_cases hm : (mac != "") = true <;> simp [hm, updateEntry_keys]

theorem newDeviceStep_keys (cfg : ScanConfig) (st : ScanState)
    (vars : PacketVars) (reply : StatusReply) :
    (newDeviceStep cfg st vars reply).devices.map Prod.fst =
      st.devices.map Prod.fst := by
  simp only [newDeviceStep, macAttach_keys, nameAttach_keys, pollPhase_keys]

theorem newDeviceStep_polls (cfg : ScanConfig) (st : ScanState)
    (vars : PacketVars) (reply : StatusReply) :
    (newDeviceStep cfg st vars reply).polls = st.polls ∨
    ∃ c : PollCall, c.ip = vars.ip ∧
      (newDeviceStep cfg st vars reply).polls = st.polls ++ [c] := by
  have h := pollPhase_polls_or cfg st.devices st.polls vars
    (identityLookup cfg vars.gwId).2.1 reply
  simpa [newDeviceStep] using h

theorem processPacket_fst (cfg : ScanConfig) (st : ScanState)
    (srcIp : String) (parse : ParseOutcome) (reply : StatusReply) :
    (processPacket cfg st srcIp parse reply).1 =
      !(appenddevice (mkEntry (interpret srcIp parse)) st.devices).1 := by
  cases hb : (appenddevice (mkEntry (interpret srcIp parse)) st.devices).1 <;>
    simp [processPacket, hb]

theorem processPacket_isNew (cfg : ScanConfig) (st : ScanState)
    (srcIp : String) (parse : ParseOutcome) (reply : StatusReply) :
    (processPacket cfg st srcIp parse reply).1 = true ↔
      regKey srcIp parse ∉ st.devices.map Prod.fst := by
  rw [processPacket_fst, Bool.not_eq_true']
  unfold regKey
  rw [← mkEntry_ip (interpret srcIp parse)]
  exact appenddevice_new_iff _ _

theorem processPacket_dup_state (cfg : ScanConfig) (st : ScanState)
    (srcIp : String) (parse : ParseOutcome) (reply : StatusReply)
    (h : (processPacket cfg st srcIp parse reply).1 = false) :
    (processPacket cfg st srcIp parse reply).2.devices = st.devices ∧
    (processPacket cfg st srcIp parse reply).2.polls = st.polls ∧
    (processPacket cfg st srcIp parse reply).2.count +
      (processPacket cfg st srcIp parse reply).2.counts =
      st.count + st.counts + 1 ∧
    st.count ≤ (processPacket cfg st srcIp parse reply).2.count ∧
    st.counts ≤ (processPacket cfg st srcIp parse reply).2.counts := by
  cases hb : (appenddevice (mkEntry (interpret srcIp parse)) st.devices).1 with
  | false => simp [processPacket, hb] at h
  | true =>
    have hd := appenddevice_dup _ _ hb
    have hc := dupCounters_spec st.count st.counts (interpret srcIp parse).version
    simp [processPacket, hb, hd]
    omega

theorem processPacket_new_state (cfg : ScanConfig) (st : ScanState)
    (srcIp : String) (parse : ParseOutcome) (reply : StatusReply)
    (h : (processPacket cfg st srcIp parse reply).1 = true) :
    (processPacket cfg st srcIp parse reply).2 =
      newDeviceStep cfg
        { st with devices :=
            st.devices ++ [(regKey srcIp parse, mkEntry (interpret srcIp parse))] }
        (interpret srcIp parse) reply := by
  cases hb : (appenddevice (mkEntry (interpret srcIp parse)) st.devices).1 with
  | false =>
    have hnew := appenddevice_new _ _ hb
    rw [mkEntry_ip] at hnew
    simp [processPacket, hb, hnew, regKey]
  | true => simp [processPacket, hb] at h

theorem regKey_eq (srcIp : String) (parse : ParseOutcome) :
    regKey srcIp parse = (interpret srcIp parse).ip := rfl

/-! ### Loop-level lemmas -/

theorem scanLoop_stop (cfg : ScanConfig) (st : ScanState)
    (evs : List RecvOutcome) (h : ¬ st.count + st.counts ≤ cfg.maxretry) :
    scanLoop cfg st evs = ⟨.budget, st, 0, 0⟩ := by
  cases evs <;> simp [scanLoop, h]

theorem processPacket_inv (cfg : ScanConfig) (st : ScanState)
    (srcIp : String) (parse : ParseOutcome) (reply : StatusReply)
    (h : RegInv st) : RegInv (processPacket cfg st srcIp parse reply).2 := by
  obtain ⟨h1, h2, h3⟩ := h
  cases hb : (processPacket cfg st srcIp parse reply).1 with
  | false =>
    obtain ⟨hd, hp, -, -, -⟩ := processPacket_dup_state cfg st srcIp parse reply hb
    refine ⟨?_, ?_, ?_⟩
    · rw [hd]; exact h1
    · rw [hp]; exact h2
    · rw [hd, hp]; exact h3
  | true =>
    have hfresh := (processPacket_isNew cfg st srcIp parse reply).1 hb
    rw [processPacket_new_state cfg st srcIp parse reply hb]
    have hkeys : (newDeviceStep cfg
        { st with devices := st.devices ++
            [(regKey srcIp parse, mkEntry (interpret srcIp parse))] }
        (interpret srcIp parse) reply).devices.map Prod.fst
        = st.devices.map Prod.fst ++ [regKey srcIp parse] := by
      rw [newDeviceStep_keys]; simp
    have hpolls := newDeviceStep_polls cfg
      { st with devices := st.devices ++
          [(regKey srcIp parse, mkEntry (interpret srcIp parse))] }
      (interpret srcIp parse) reply
    refine ⟨?_, ?_, ?_⟩
    · rw [hkeys, List.nodup_append]
      refine ⟨h1, List.nodup_singleton _, fun a ha hmem => ?_⟩
      rw [List.mem_singleton] at hmem
      exact hfresh (hmem ▸ ha)
    · rcases hpolls with hsame | ⟨c, hcip, happ⟩
      · rw [hsame]; exact h2
      · rw [happ, List.map_append, List.nodup_append]
        refine ⟨h2, List.nodup_singleton _, fun a ha hmem => ?_⟩
        rw [List.map_singleton, List.mem_singleton] at hmem
        rw [hcip, ← regKey_eq] at hmem
        exact hfresh (hmem ▸ h3 a ha)
    · intro i hi
      rw [hkeys, List.mem_append]
      rcases hpolls with hsame | ⟨c, hcip, happ⟩
      · rw [hsame] at hi
        exact Or.inl (h3 i hi)
      · rw [happ, List.map_append] at hi
        rcases List.mem_append.1 hi with hiold | hinew
        · exact Or.inl (h3 i hiold)
        · rw [List.map_singleton, List.mem_singleton] at hinew
          rw [hinew, hcip, ← regKey_eq]
          exact Or.inr (List.mem_singleton.2 rfl)

theorem timeoutStep_inv (st : ScanState) (h : RegInv st) :
    RegInv (timeoutStep st) := by
  obtain ⟨hd, hp, -, -, -⟩ := timeoutStep_state st
  exact ⟨hd ▸ h.1, hp ▸ h.2.1, by rw [hd, hp]; exact h.2.2⟩

theorem scanLoop_inv (cfg : ScanConfig) :
    ∀ (evs : List RecvOutcome) (st : ScanState), RegInv st →
      RegInv (scanLoop cfg st evs).final := by
  intro evs
  induction evs with
  | nil =>
    intro st h
    by_cases hg : st.count + st.counts ≤ cfg.maxretry <;>
      simp [scanLoop, hg] <;> exact h
  | cons ev rest ih =>
    intro st h
    by_cases hg : st.count + st.counts ≤ cfg.maxretry
    · cases ev with
      | interrupt => simpa [scanLoop, hg] using h
      | timeout => simpa [scanLoop, hg] using ih _ (timeoutStep_inv st h)
      | packet srcIp parse reply =>
        simpa [scanLoop, hg] using
          ih _ (processPacket_inv cfg st srcIp parse reply h)
    · simpa [scanLoop_stop cfg st _ hg] using h

theorem processPacket_counters (cfg : ScanConfig) (st : ScanState)
    (srcIp : String) (parse : ParseOutcome) (reply : StatusReply)
    (hc : 0 ≤ st.count) (hs : 0 ≤ st.counts) :
    0 ≤ (processPacket cfg st srcIp parse reply).2.count ∧
    0 ≤ (processPacket cfg st srcIp parse reply).2.counts ∧
    st.count + st.counts - 1 ≤
      (processPacket cfg st srcIp parse reply).2.count +
      (processPacket cfg st srcIp parse reply).2.counts ∧
    (processPacket cfg st srcIp parse reply).2.count +
      (processPacket cfg st srcIp parse reply).2.counts ≤
      st.count + st.counts + 1 ∧
    ((processPacket cfg st srcIp parse reply).1 = true →
      (processPacket cfg st srcIp parse reply).2.count +
        (processPacket cfg st srcIp parse reply).2.counts ≤
        st.count + st.counts) ∧
    ((processPacket cfg st srcIp parse reply).1 = false →
      (processPacket cfg st srcIp parse reply).2.count +
        (processPacket cfg st srcIp parse reply).2.counts =
        st.count + st.counts + 1) := by
  cases hb : (processPacket cfg st srcIp parse reply).1 with
  | false =>
    obtain ⟨-, -, hsum, hc1, hc2⟩ := processPacket_dup_state cfg st srcIp parse reply hb
    refine ⟨by omega, by omega, by omega, by omega, fun hcontra => ?_, fun _ => hsum⟩
    simp at hcontra
  | true =>
    rw [processPacket_new_state cfg st srcIp parse reply hb]
    obtain ⟨hco, hcs⟩ := newDeviceStep_counters cfg
      { st with devices := st.devices ++
          [(regKey srcIp parse, mkEntry (interpret srcIp parse))] }
      (interpret srcIp parse) reply
    have hn := noveltyCounters_spec st.count st.counts
      (interpret srcIp parse).version hc hs
    rw [hco, hcs]
    simp only []
    refine ⟨?_, ?_, ?_, ?_, fun _ => ?_, fun hcontra => ?_⟩
    · omega
    · omega
    · omega
    · omega
    · omega
    · simp at hcontra

theorem scanLoop_consumed_le (cfg : ScanConfig) :
    ∀ (evs : List RecvOutcome) (st : ScanState), 0 ≤ st.count → 0 ≤ st.counts →
      st.count + st.counts ≤ cfg.maxretry + 1 →
      ((scanLoop cfg st evs).consumed : Int) ≤
        cfg.maxretry + 1 - (st.count + st.counts) +
          2 * (scanLoop cfg st evs).novel := by
  intro evs
  induction evs with
  | nil =>
    intro st h1 h2 h3
    by_cases hg : st.count + st.counts ≤ cfg.maxretry <;>
      simp [scanLoop, hg] <;> omega
  | cons ev rest ih =>
    intro st h1 h2 h3
    by_cases hg : st.count + st.counts ≤ cfg.maxretry
    · cases ev with
      | interrupt =>
        simp [scanLoop, hg]
        omega
      | timeout =>
        obtain ⟨-, -, hsum, hcc, hcs⟩ := timeoutStep_state st
        have hrec := ih (timeoutStep st) (by omega) (by omega) (by omega)
        simp [scanLoop, hg]
        omega
      | packet srcIp parse reply =>
        obtain ⟨hp1, hp2, hp3, hp4, hp5, hp6⟩ :=
          processPacket_counters cfg st srcIp parse reply h1 h2
        have hrec := ih (processPacket cfg st srcIp parse reply).2 hp1 hp2 (by omega)
        cases hb : (processPacket cfg st srcIp parse reply).1 with
        | false =>
          have heq := hp6 hb
          simp [scanLoop, hg, hb]
          omega
        | true =>
          have hle := hp5 hb
          simp [scanLoop, hg, hb]
          omega
    · simp [scanLoop_stop cfg st _ hg]
      omega

theorem scanLoop_budget_exceeds (cfg : ScanConfig) :
    ∀ (evs : List RecvOutcome) (st : ScanState),
      (scanLoop cfg st evs).exitKind = .budget →
      cfg.maxretry < (scanLoop cfg st evs).final.count +
        (scanLoop cfg st evs).final.counts := by
  intro evs
  induction evs with
  | nil =>
    intro st h
    by_cases hg : st.count + st.counts ≤ cfg.maxretry
    · simp [scanLoop, hg] at h
    · simp [scanLoop, hg]
      omega
  | cons ev rest ih =>
    intro st h
    by_cases hg : st.count + st.counts ≤ cfg.maxretry
    · cases ev with
      | interrupt => simp [scanLoop, hg] at h
      | timeout =>
        simp [scanLoop, hg] at h ⊢
        exact ih (timeoutStep st) h
      | packet srcIp parse reply =>
        simp [scanLoop, hg] at h ⊢
        exact ih (processPacket cfg st srcIp parse reply).2 h
    · simp [scanLoop_stop cfg st _ hg]
      omega

theorem scanLoop_silent (cfg : ScanConfig) :
    ∀ (n : Nat) (st : ScanState), 0 ≤ st.count → 0 ≤ st.counts →
      st.count + st.counts ≤ cfg.maxretry →
      cfg.maxretry < st.count + st.counts + n →
      (scanLoop cfg st (List.replicate n .timeout)).consumed =
        (cfg.maxretry + 1 - (st.count + st.counts)).toNat ∧
      (scanLoop cfg st (List.replicate n .timeout)).exitKind = .budget := by
  intro n
  induction n with
  | zero =>
    intro st h1 h2 h3 h4
    exfalso
    omega
  | succ n ih =>
    intro st h1 h2 h3 h4
    obtain ⟨-, -, hsum, hcc, hcs⟩ := timeoutStep_state st
    rw [List.replicate_succ]
    by_cases hg2 : (timeoutStep st).count + (timeoutStep st).counts ≤ cfg.maxretry
    · have hrec := ih (timeoutStep st) (by omega) (by omega) hg2 (by omega)
      simp [scanLoop, h3]
      constructor
      · rw [hrec.1]
        omega
      · exact hrec.2
    · have hstop := scanLoop_stop cfg (timeoutStep st) (List.replicate n .timeout) hg2
      simp [scanLoop, h3, hstop]
      omega

theorem scanLoop_consumes (cfg : ScanConfig) (st : ScanState)
    (ev : RecvOutcome) (rest : List RecvOutcome)
    (h : st.count + st.counts ≤ cfg.maxretry) :
    1 ≤ (scanLoop cfg st (ev :: rest)).consumed := by
  cases ev <;> simp [scanLoop, h]

/-! ### Claim theorems -/

/-- Claim C1, counterexample to the claim as stated: with `maxRetries = 0`
and a single receive timeout the loop performs one iteration, while the
claimed bound `maxRetries` plus the number of novelty-driven decrements is
`0 + 0 = 0` — the continuation test is inclusive, so the iteration count
always exceeds that bound by at least one. -/
theorem claim1_counterexample :
    (scanLoop ⟨0, true, false, [], []⟩ initState [.timeout]).consumed = 1 ∧
    (scanLoop ⟨0, true, false, [], []⟩ initState [.timeout]).novel = 0 ∧
    ¬((scanLoop ⟨0, true, false, [], []⟩ initState [.timeout]).consumed ≤
        0 + (scanLoop ⟨0, true, false, [], []⟩ initState [.timeout]).novel) := by
  decide

/-- Claim C1 (amended): the loop continuation condition is exactly
`count + counts <= maxretry` — with the sum above the budget the loop stops
at once consuming nothing, below or at the budget it always performs an
iteration, and a budget exit leaves the final counters strictly above the
budget — and for every finite sequence of receive outcomes the number of
iterations is bounded by `maxRetries + 1` plus twice the number of
novelty-driven counter decrements; the loop never runs unboundedly. -/
theorem claim1_amended_loop_bound :
    (∀ (cfg : ScanConfig) (st : ScanState) (evs : List RecvOutcome),
      ¬ st.count + st.counts ≤ cfg.maxretry →
      scanLoop cfg st evs = ⟨.budget, st, 0, 0⟩) ∧
    (∀ (cfg : ScanConfig) (st : ScanState) (ev : RecvOutcome)
        (rest : List RecvOutcome),
      st.count + st.counts ≤ cfg.maxretry →
      1 ≤ (scanLoop cfg st (ev :: rest)).consumed) ∧
    (∀ (cfg : ScanConfig) (evs : List RecvOutcome) (st : ScanState),
      (scanLoop cfg st evs).exitKind = .budget →
      cfg.maxretry < (scanLoop cfg st evs).final.count +
        (scanLoop cfg st evs).final.counts) ∧
    (∀ (cfg : ScanConfig) (evs : List RecvOutcome), 0 ≤ cfg.maxretry →
      ((scanLoop cfg initState evs).consumed : Int) ≤
        cfg.maxretry + 1 + 2 * (scanLoop cfg initState evs).novel) := by
  refine ⟨fun cfg st evs h => scanLoop_stop cfg st evs h,
    fun cfg st ev rest h => scanLoop_consumes cfg st ev rest h,
    fun cfg evs st h => scanLoop_budget_exceeds cfg evs st h,
    fun cfg evs h => ?_⟩
  have hb := scanLoop_consumed_le cfg evs initState (le_refl 0) (le_refl 0)
    (by show (0 : Int) + 0 ≤ cfg.maxretry + 1; omega)
  have hc : initState.count = 0 := rfl
  have hs : initState.counts = 0 := rfl
  rw [hc, hs] at hb
  omega

/-- Claim C1, witness for the amended bound: with a budget of 1 and three
timeouts offered, the loop consumes two of them, within the amended bound. -/
theorem claim1_witness :
    ((scanLoop ⟨1, true, false, [], []⟩ initState
        [.timeout, .timeout, .timeout]).consumed : Int) ≤
      (1 : Int) + 1 + 2 * (scanLoop ⟨1, true, false, [], []⟩ initState
        [.timeout, .timeout, .timeout]).novel :=
  claim1_amended_loop_bound.2.2.2 ⟨1, true, false, [], []⟩
    [.timeout, .timeout, .timeout] (by decide)

/-- Claim C6, counterexample to the claim as stated: after a device has been
discovered, an interrupt during the next receive makes the scanner call
`exit()` — the registry is non-empty, yet nothing is returned to the caller
and the function's socket teardown (lines 410-411) never runs, contradicting
the claimed clean shutdown that releases both sockets and returns the
partial registry. -/
theorem claim6_counterexample :
    (scanLoop ⟨3, true, false, [], []⟩ initState
      [.packet "10.0.0.5" (.json ⟨some "10.0.0.5", some "g", some "p", some "3.1"⟩)
        (.withDps "d"),
       .interrupt]).final.devices ≠ [] ∧
    returnedDevices (scanLoop ⟨3, true, false, [], []⟩ initState
      [.packet "10.0.0.5" (.json ⟨some "10.0.0.5", some "g", some "p", some "3.1"⟩)
        (.withDps "d"),
       .interrupt]) = none ∧
    socketsClosed (scanLoop ⟨3, true, false, [], []⟩ initState
      [.packet "10.0.0.5" (.json ⟨some "10.0.0.5", some "g", some "p", some "3.1"⟩)
        (.withDps "d"),
       .interrupt]) = false := by
  decide

/-- Claim C6 (amended): a KeyboardInterrupt raised during a receive call is
caught at the receive and terminates the scan immediately via `exit()`: the
interrupt is the only outcome consumed and the loop state is abandoned —
the accumulated devices are not returned to the caller and the function's
own socket teardown does not run (the process exit, outside the function,
is what releases the sockets). -/
theorem claim6_interrupt_exit (cfg : ScanConfig) (st : ScanState)
    (rest : List RecvOutcome) (h : st.count + st.counts ≤ cfg.maxretry) :
    scanLoop cfg st (.interrupt :: rest) = ⟨.userBreak, st, 1, 0⟩ ∧
    returnedDevices (scanLoop cfg st (.interrupt :: rest)) = none ∧
    socketsClosed (scanLoop cfg st (.interrupt :: rest)) = false := by
  have he : scanLoop cfg st (.interrupt :: rest) = ⟨.userBreak, st, 1, 0⟩ := by
    simp [scanLoop, h]
  exact ⟨he, by rw [he]; rfl, by rw [he]; rfl⟩

/-- Claim C6, witness: the amended interrupt behaviour at a concrete state. -/
theorem claim6_witness :
    scanLoop ⟨2, true, false, [], []⟩ initState [.interrupt] =
      ⟨.userBreak, initState, 1, 0⟩ ∧
    returnedDevices (scanLoop ⟨2, true, false, [], []⟩ initState [.interrupt]) =
      none ∧
    socketsClosed (scanLoop ⟨2, true, false, [], []⟩ initState [.interrupt]) =
      false :=
  claim6_interrupt_exit ⟨2, true, false, [], []⟩ initState [] (by decide)

/-- Claim C8: each iteration the listener services the dialect whose silence
counter is lower or equal — the port-6666 socket exactly when
`count <= counts`, the port-6667 socket exactly when `counts < count` — a
timeout on the serviced port ticks that port's own counter only, and under
timeouts the imbalance between the counters never grows beyond one, so both
ports keep being serviced and neither starves. -/
theorem claim8_port_selection (st : ScanState) :
    (recvPort st = .a ↔ st.count ≤ st.counts) ∧
    (recvPort st = .b ↔ st.counts < st.count) ∧
    (recvPort st = .a → (timeoutStep st).count = st.count + 1 ∧
      (timeoutStep st).counts = st.counts) ∧
    (recvPort st = .b → (timeoutStep st).counts = st.counts + 1 ∧
      (timeoutStep st).count = st.count) ∧
    (|st.count - st.counts| ≤ 1 →
      |(timeoutStep st).count - (timeoutStep st).counts| ≤ 1) := by
  unfold timeoutStep recvPort
  by_cases h : st.count ≤ st.counts <;> simp [h, abs_le] <;> omega

/-- Claim C8, witness: from the initial state (equal counters) port A is
serviced, its counter ticks, and the counters stay within one of each
other. -/
theorem claim8_witness :
    recvPort initState = .a ∧
    (timeoutStep initState).count = initState.count + 1 ∧
    |(timeoutStep initState).count - (timeoutStep initState).counts| ≤ 1 :=
  ⟨(claim8_port_selection initState).1.mpr (by decide),
   ((claim8_port_selection initState).2.2.1
     ((claim8_port_selection initState).1.mpr (by decide))).1,
   (claim8_port_selection initState).2.2.2.2 (by decide)⟩

/-- Claim C10: the continuation test is inclusive and both counters start at
zero, so for every `maxretry >= 0` the loop body executes at least once;
and on a fully silent network, where every receive call times out, the scan
performs exactly `maxretry + 1` timed-out receive attempts and then exits
through the budget test. -/
theorem claim10_silent_exact (m n : Nat) (p hk : Bool)
    (td : List KnownIdentity) (il : List (String × String)) (h : m < n) :
    (scanLoop ⟨(m : Int), p, hk, td, il⟩ initState
        (List.replicate n .timeout)).consumed = m + 1 ∧
    (scanLoop ⟨(m : Int), p, hk, td, il⟩ initState
        (List.replicate n .timeout)).exitKind = .budget ∧
    (∀ (ev : RecvOutcome) (rest : List RecvOutcome),
      1 ≤ (scanLoop ⟨(m : Int), p, hk, td, il⟩ initState (ev :: rest)).consumed) := by
  have hsil := scanLoop_silent ⟨(m : Int), p, hk, td, il⟩ n initState
    (le_refl 0) (le_refl 0)
    (by show (0 : Int) + 0 ≤ (m : Int); omega)
    (by show (m : Int) < 0 + 0 + (n : Nat); omega)
  have hc : initState.count = 0 := rfl
  have hs : initState.counts = 0 := rfl
  have hm : (⟨(m : Int), p, hk, td, il⟩ : ScanConfig).maxretry = (m : Int) := rfl
  rw [hc, hs, hm] at hsil
  refine ⟨?_, hsil.2, fun ev rest => scanLoop_consumes _ _ ev rest
    (by show (0 : Int) + 0 ≤ (m : Int); omega)⟩
  rw [hsil.1]
  omega

/-- Claim C10, witness: budget 2 on a silent network gives exactly 3
timed-out receive attempts. -/
theorem claim10_witness :
    (scanLoop ⟨(2 : Nat), true, false, [], []⟩ initState
        (List.replicate 5 .timeout)).consumed = 2 + 1 ∧
    (scanLoop ⟨(2 : Nat), true, false, [], []⟩ initState
        (List.replicate 5 .timeout)).exitKind = .budget ∧
    (∀ (ev : RecvOutcome) (rest : List RecvOutcome),
      1 ≤ (scanLoop ⟨(2 : Nat), true, false, [], []⟩ initState
        (ev :: rest)).consumed) :=
  claim10_silent_exact 2 5 true false [] [] (by decide)

/-- Claim C2, counterexample to the claim as stated: two datagrams from the
same source IP `10.0.0.5` whose decoded payloads declare different `ip`
fields produce two registry entries — the registry is keyed by the
payload-declared `ip` (line 272 overwrites the sender address), not by the
datagram's source IP, so it does not hold exactly one entry per distinct
source IP. -/
theorem claim2_counterexample :
    ((scanLoop ⟨5, true, false, [], []⟩ initState
      [.packet "10.0.0.5"
        (.json ⟨some "10.0.0.6", some "g1", some "p1", some "3.1"⟩)
        (.withDps "D1"),
       .packet "10.0.0.5"
        (.json ⟨some "10.0.0.7", some "g2", some "p2", some "3.1"⟩)
        (.withDps "D2")]).final.devices.map Prod.fst)
      = ["10.0.0.6", "10.0.0.7"] := by
  decide

/-- Claim C2 (amended): the registry holds exactly one entry per distinct
registry key — the key being the payload-declared `ip` field for decodable
payloads and the sender address for undecodable ones — with at most one
status poll per key over any run from the initial state; an observation
whose key is already recorded is reported as not new and leaves the
registry (its first-seen identity fields included) and the poll log
completely unchanged. -/
theorem claim2_amended_registry (cfg : ScanConfig) :
    (∀ evs : List RecvOutcome,
      ((scanLoop cfg initState evs).final.devices.map Prod.fst).Nodup ∧
      ((scanLoop cfg initState evs).final.polls.map PollCall.ip).Nodup) ∧
    (∀ (st : ScanState) (srcIp : String) (parse : ParseOutcome)
        (reply : StatusReply),
      regKey srcIp parse ∈ st.devices.map Prod.fst →
      (processPacket cfg st srcIp parse reply).1 = false ∧
      (processPacket cfg st srcIp parse reply).2.devices = st.devices ∧
      (processPacket cfg st srcIp parse reply).2.polls = st.polls) := by
  constructor
  · intro evs
    have h := scanLoop_inv cfg evs initState
      ⟨List.nodup_nil, List.nodup_nil, by intro i hi; simp [initState] at hi⟩
    exact ⟨h.1, h.2.1⟩
  · intro st srcIp parse reply hin
    have hb : (processPacket cfg st srcIp parse reply).1 = false := by
      cases hx : (processPacket cfg st srcIp parse reply).1 with
      | false => rfl
      | true =>
        exact absurd hin ((processPacket_isNew cfg st srcIp parse reply).1 hx)
    obtain ⟨hd, hp, -, -, -⟩ := processPacket_dup_state cfg st srcIp parse reply hb
    exact ⟨hb, hd, hp⟩

/-- Claim C2, witness: a duplicate observation of the already-recorded key
`10.0.0.9` is reported as not new and changes neither registry nor poll
log. -/
theorem claim2_witness :
    (processPacket ⟨5, true, false, [], []⟩
        ⟨[("10.0.0.9", sampleEntry)], 0, 0, []⟩ "10.0.0.9" .noJson .raises).1 =
      false ∧
    (processPacket ⟨5, true, false, [], []⟩
        ⟨[("10.0.0.9", sampleEntry)], 0, 0, []⟩ "10.0.0.9" .noJson
        .raises).2.devices = [("10.0.0.9", sampleEntry)] ∧
    (processPacket ⟨5, true, false, [], []⟩
        ⟨[("10.0.0.9", sampleEntry)], 0, 0, []⟩ "10.0.0.9" .noJson
        .raises).2.polls = [] :=
  (claim2_amended_registry ⟨5, true, false, [], []⟩).2
    ⟨[("10.0.0.9", sampleEntry)], 0, 0, []⟩ "10.0.0.9" .noJson .raises
    (by decide)

/-- Claim C3: a timeout on the serviced port ticks that dialect's own
silence counter; a counter is decremented exactly on confirmation of a
previously-unseen device whose version field names that dialect — the
decrement is `floor(c - 1)`, floored at zero, so a counter that is
nonnegative never drops below the floor — and a duplicate broadcast never
decrements either counter. -/
theorem claim3_counter_policy (cfg : ScanConfig) (st : ScanState)
    (srcIp : String) (parse : ParseOutcome) (reply : StatusReply) :
    (recvPort st = .a → (timeoutStep st).count = st.count + 1 ∧
      (timeoutStep st).counts = st.counts) ∧
    (recvPort st = .b → (timeoutStep st).counts = st.counts + 1 ∧
      (timeoutStep st).count = st.count) ∧
    ((processPacket cfg st srcIp parse reply).1 = true →
      ((interpret srcIp parse).version = "3.1" →
        (processPacket cfg st srcIp parse reply).2.count =
          tfloor (st.count - 1) ∧
        (processPacket cfg st srcIp parse reply).2.counts = st.counts) ∧
      ((interpret srcIp parse).version ≠ "3.1" →
        (processPacket cfg st srcIp parse reply).2.counts =
          tfloor (st.counts - 1) ∧
        (processPacket cfg st srcIp parse reply).2.count = st.count) ∧
      (0 ≤ st.count → 0 ≤ (processPacket cfg st srcIp parse reply).2.count) ∧
      (0 ≤ st.counts → 0 ≤ (processPacket cfg st srcIp parse reply).2.counts)) ∧
    ((processPacket cfg st srcIp parse reply).1 = false →
      st.count ≤ (processPacket cfg st srcIp parse reply).2.count ∧
      st.counts ≤ (processPacket cfg st srcIp parse reply).2.counts) := by
  refine ⟨?_, ?_, ?_, ?_⟩
  · intro ha
    unfold timeoutStep
    rw [ha]
    exact ⟨rfl, rfl⟩
  · intro hb2
    unfold timeoutStep
    rw [hb2]
    exact ⟨rfl, rfl⟩
  · intro hnew
    rw [processPacket_new_state cfg st srcIp parse reply hnew]
    obtain ⟨hco, hcs⟩ := newDeviceStep_counters cfg
      { st with devices := st.devices ++
          [(regKey srcIp parse, mkEntry (interpret srcIp parse))] }
      (interpret srcIp parse) reply
    rw [hco, hcs]
    by_cases hv : (interpret srcIp parse).version = "3.1"
    · refine ⟨fun _ => ?_, fun hcon => absurd hv hcon, ?_, ?_⟩
      · unfold noveltyCounters
        rw [if_pos (by simp [hv])]
        exact ⟨rfl, rfl⟩
      · intro _
        unfold noveltyCounters
        rw [if_pos (by simp [hv])]
        exact tfloor_nonneg _
      · intro hs0
        unfold noveltyCounters
        rw [if_pos (by simp [hv])]
        exact hs0
    · refine ⟨fun hcon => absurd hcon hv, fun _ => ?_, ?_, ?_⟩
      · unfold noveltyCounters
        rw [if_neg (by simp [hv])]
        exact ⟨rfl, rfl⟩
      · intro hc0
        unfold noveltyCounters
        rw [if_neg (by simp [hv])]
        exact hc0
      · intro _
        unfold noveltyCounters
        rw [if_neg (by simp [hv])]
        exact tfloor_nonneg _
  · intro hdup
    obtain ⟨-, -, -, hc1, hc2⟩ :=
      processPacket_dup_state cfg st srcIp parse reply hdup
    exact ⟨hc1, hc2⟩

/-- Claim C3, witness: a new 3.1 device at zero counters leaves `count` at
the floor (`floor(0 - 1) = 0`), and a timeout from equal counters ticks the
serviced dialect-A counter. -/
theorem claim3_witness :
    ((timeoutStep initState).count = initState.count + 1 ∧
      (timeoutStep initState).counts = initState.counts) ∧
    ((processPacket ⟨4, true, false, [], []⟩ initState "10.0.0.5"
        (.json ⟨some "10.0.0.5", some "g", some "p", some "3.1"⟩)
        (.withDps "d")).2.count = tfloor (initState.count - 1) ∧
      (processPacket ⟨4, true, false, [], []⟩ initState "10.0.0.5"
        (.json ⟨some "10.0.0.5", some "g", some "p", some "3.1"⟩)
        (.withDps "d")).2.counts = initState.counts) :=
  ⟨(claim3_counter_policy ⟨4, true, false, [], []⟩ initState "10.0.0.5"
      (.json ⟨some "10.0.0.5", some "g", some "p", some "3.1"⟩)
      (.withDps "d")).1 (by decide),
   ((claim3_counter_policy ⟨4, true, false, [], []⟩ initState "10.0.0.5"
      (.json ⟨some "10.0.0.5", some "g", some "p", some "3.1"⟩)
      (.withDps "d")).2.2.1 (by decide)).1 (by decide)⟩

/-! ### Field and branch tracking for the new-device pipeline -/

theorem pollPhase_polls_cases (cfg : ScanConfig) (d : Registry)
    (polls : List PollCall) (vars : PacketVars) (dkey : String)
    (reply : StatusReply) (hp : cfg.poll = true) :
    (vars.version = "3.1" →
      (pollPhase cfg d polls vars dkey reply).2 =
        polls ++ [⟨vars.ip, vars.gwId, dkey, "3.1"⟩]) ∧
    (vars.version ≠ "3.1" → dkey ≠ "" →
      (pollPhase cfg d polls vars dkey reply).2 =
        polls ++ [⟨vars.ip, vars.gwId, dkey, "3.3"⟩]) ∧
    (vars.version ≠ "3.1" → dkey = "" →
      (pollPhase cfg d polls vars dkey reply).2 = polls) :=
  ⟨fun hv => by simp [pollPhase, hp, hv, pollUpdate_polls],
   fun hv hk => by simp [pollPhase, hp, hv, hk, pollUpdate_polls],
   fun hv hk => by simp [pollPhase, hp, hv, hk]⟩

theorem updateEntry_key_inv (d : Registry) (ip0 : String)
    (f : DeviceEntry → DeviceEntry) (P : DeviceEntry → Prop)
    (hf : ∀ e, P e → P (f e)) (hd : ∀ e, (ip0, e) ∈ d → P e) :
    ∀ e, (ip0, e) ∈ updateEntry d ip0 f → P e := by
  intro e he
  unfold updateEntry at he
  rcases List.mem_map.1 he with ⟨q, hq, heq⟩
  by_cases hc : q.1 == ip0
  · rw [if_pos hc] at heq
    injection heq with h1 h2
    have hip : q.1 = ip0 := beq_iff_eq.1 hc
    have hmem : (ip0, q.2) ∈ d := by rw [← hip]; exact hq
    exact h2 ▸ hf q.2 (hd q.2 hmem)
  · rw [if_neg hc] at heq
    exfalso
    apply hc
    rw [heq]
    simp

theorem mem_append_fresh (d : Registry) (k : String) (e0 : DeviceEntry)
    (hfresh : k ∉ d.map Prod.fst) :
    ∀ e, (k, e) ∈ d ++ [(k, e0)] → e = e0 := by
  intro e he
  rcases List.mem_append.1 he with hin | hin
  · exact absurd (List.mem_map.2 ⟨(k, e), hin, rfl⟩) hfresh
  · rw [List.mem_singleton] at hin
    simpa using hin

theorem pollUpdate_key_inv (d : Registry) (polls : List PollCall)
    (ip gwId dkey vers : String) (reply : StatusReply) (P : DeviceEntry → Prop)
    (hdps : ∀ e s, P e → P { e with dps := some s })
    (herr : ∀ e, P e → P { e with err := some "Unable to poll" })
    (hbase : ∀ e, (ip, e) ∈ d → P e) :
    ∀ e, (ip, e) ∈ (pollUpdate d polls ip gwId dkey vers reply).1 → P e := by
  cases reply with
  | withDps s => exact updateEntry_key_inv d ip _ P (fun e he => hdps e s he) hbase
  | errorResp m => exact updateEntry_key_inv d ip _ P herr hbase
  | other => exact updateEntry_key_inv d ip _ P herr hbase
  | raises => exact updateEntry_key_inv d ip _ P herr hbase

theorem pollPhase_key_inv (cfg : ScanConfig) (d : Registry)
    (polls : List PollCall) (vars : PacketVars) (dkey : String)
    (reply : StatusReply) (P : DeviceEntry → Prop)
    (hdps : ∀ e s, P e → P { e with dps := some s })
    (herr : ∀ e, P e → P { e with err := some "Unable to poll" })
    (hbase : ∀ e, (vars.ip, e) ∈ d → P e) :
    ∀ e, (vars.ip, e) ∈ (pollPhase cfg d polls vars dkey reply).1 → P e := by
  unfold pollPhase
  by_cases hp : cfg.poll = true
  · rw [if_pos hp]
    by_cases hv : (vars.version == "3.1") = true
    · rw [if_pos hv]
      exact pollUpdate_key_inv d polls vars.ip vars.gwId dkey "3.1" reply P
        hdps herr hbase
    · rw [if_neg hv]
      by_cases hk : (dkey != "") = true
      · rw [if_pos hk]
        exact pollUpdate_key_inv d polls vars.ip vars.gwId dkey "3.3" reply P
          hdps herr hbase
      · rw [if_neg hk]
        exact hbase
  · rw [if_neg hp]
    exact hbase

theorem nameAttach_key_inv (d : Registry) (ip dname dkey : String)
    (P : DeviceEntry → Prop)
    (hnk : dname ≠ "" → ∀ e, P e →
      P { e with name := some dname, key := some dkey })
    (hbase : ∀ e, (ip, e) ∈ d → P e) :
    ∀ e, (ip, e) ∈ nameAttach d ip dname dkey → P e := by
  unfold nameAttach
  by_cases hn : (dname != "") = true
  · rw [if_pos hn]
    exact updateEntry_key_inv d ip _ P (hnk (bne_iff_ne.1 hn)) hbase
  · rw [if_neg hn]
    exact hbase

theorem macAttach_key_inv (d : Registry) (ip mac : String)
    (P : DeviceEntry → Prop)
    (hm : ∀ e, P e → P { e with mac := some mac })
    (hbase : ∀ e, (ip, e) ∈ d → P e) :
    ∀ e, (ip, e) ∈ macAttach d ip mac → P e := by
  unfold macAttach
  by_cases hmc : (mac != "") = true
  · rw [if_pos hmc]
    exact updateEntry_key_inv d ip _ P hm hbase
  · rw [if_neg hmc]
    exact hbase

theorem newDeviceStep_key_inv (cfg : ScanConfig) (st : ScanState)
    (vars : PacketVars) (reply : StatusReply) (P : DeviceEntry → Prop)
    (hdps : ∀ e s, P e → P { e with dps := some s })
    (herr : ∀ e, P e → P { e with err := some "Unable to poll" })
    (hnk : (identityLookup cfg vars.gwId).1 ≠ "" → ∀ e, P e →
      P { e with name := some (identityLookup cfg vars.gwId).1,
                 key := some (identityLookup cfg vars.gwId).2.1 })
    (hmac : ∀ e m, P e → P { e with mac := some m })
    (hbase : ∀ e, (vars.ip, e) ∈ st.devices → P e) :
    ∀ e, (vars.ip, e) ∈ (newDeviceStep cfg st vars reply).devices → P e := by
  intro e he
  have hred : (newDeviceStep cfg st vars reply).devices =
      macAttach (nameAttach (pollPhase cfg st.devices st.polls vars
          (identityLookup cfg vars.gwId).2.1 reply).1 vars.ip
        (identityLookup cfg vars.gwId).1 (identityLookup cfg vars.gwId).2.1)
        vars.ip (macResolve cfg vars.ip (identityLookup cfg vars.gwId).2.2) :=
    rfl
  rw [hred] at he
  exact macAttach_key_inv _ _ _ P (fun e hP => hmac e _ hP)
    (nameAttach_key_inv _ _ _ _ P hnk
      (pollPhase_key_inv cfg st.devices st.polls vars _ reply P hdps herr
        hbase))
    e he

/-- Claim C4: with polling enabled, a newly discovered version-3.1
(dialect A) device is always passed to the external status-poll collaborator
— even when the resolved key is empty — while a new device of any other
version is passed exactly when its resolved key is non-empty; a dialect-B
device with no resolvable key is never polled. -/
theorem claim4_poll_eligibility (cfg : ScanConfig) (st : ScanState)
    (srcIp : String) (parse : ParseOutcome) (reply : StatusReply)
    (hpoll : cfg.poll = true)
    (hnew : (processPacket cfg st srcIp parse reply).1 = true) :
    ((interpret srcIp parse).version = "3.1" →
      (processPacket cfg st srcIp parse reply).2.polls =
        st.polls ++ [⟨(interpret srcIp parse).ip, (interpret srcIp parse).gwId,
          (identityLookup cfg (interpret srcIp parse).gwId).2.1, "3.1"⟩]) ∧
    ((interpret srcIp parse).version ≠ "3.1" →
      (identityLookup cfg (interpret srcIp parse).gwId).2.1 ≠ "" →
      (processPacket cfg st srcIp parse reply).2.polls =
        st.polls ++ [⟨(interpret srcIp parse).ip, (interpret srcIp parse).gwId,
          (identityLookup cfg (interpret srcIp parse).gwId).2.1, "3.3"⟩]) ∧
    ((interpret srcIp parse).version ≠ "3.1" →
      (identityLookup cfg (interpret srcIp parse).gwId).2.1 = "" →
      (processPacket cfg st srcIp parse reply).2.polls = st.polls) := by
  rw [processPacket_new_state cfg st srcIp parse reply hnew]
  have hc := pollPhase_polls_cases cfg
    (st.devices ++ [(regKey srcIp parse, mkEntry (interpret srcIp parse))])
    st.polls (interpret srcIp parse)
    (identityLookup cfg (interpret srcIp parse).gwId).2.1 reply hpoll
  refine ⟨fun hv => ?_, fun hv hk => ?_, fun hv hk => ?_⟩
  · simpa [newDeviceStep] using hc.1 hv
  · simpa [newDeviceStep] using hc.2.1 hv hk
  · simpa [newDeviceStep] using hc.2.2 hv hk

/-- Claim C4, witness: a version-3.1 device with no key data is polled with
an empty key, while a version-3.3 device with no resolvable key is not
polled at all. -/
theorem claim4_witness :
    (processPacket ⟨4, true, false, [], []⟩ initState "10.0.0.5"
        (.json ⟨some "10.0.0.5", some "g", some "p", some "3.1"⟩)
        (.withDps "d")).2.polls =
      initState.polls ++ [⟨"10.0.0.5", "g", "", "3.1"⟩] ∧
    (processPacket ⟨4, true, false, [], []⟩ initState "10.0.0.6"
        (.json ⟨some "10.0.0.6", some "h", some "p", some "3.3"⟩)
        (.withDps "d")).2.polls = initState.polls :=
  ⟨(claim4_poll_eligibility ⟨4, true, false, [], []⟩ initState "10.0.0.5"
      (.json ⟨some "10.0.0.5", some "g", some "p", some "3.1"⟩)
      (.withDps "d") rfl (by decide)).1 (by decide),
   (claim4_poll_eligibility ⟨4, true, false, [], []⟩ initState "10.0.0.6"
      (.json ⟨some "10.0.0.6", some "h", some "p", some "3.3"⟩)
      (.withDps "d") rfl (by decide)).2.2 (by decide) (by decide)⟩

/-- Claim C5, counterexample to the claim as stated: a structured error
response puts the same generic marker `"Unable to poll"` on the entry as a
raised exception does — two different error responses yield identical
registry effects — so the attached `pollError` is not derived from the
response (only the verbose console output is). -/
theorem claim5_counterexample :
    (pollUpdate [("10.0.0.9", sampleEntry)] [] "10.0.0.9" "g9" "" "3.1"
        (.errorResp "json obj data unvalid")).1 =
      (pollUpdate [("10.0.0.9", sampleEntry)] [] "10.0.0.9" "g9" "" "3.1"
        .raises).1 ∧
    (pollUpdate [("10.0.0.9", sampleEntry)] [] "10.0.0.9" "g9" "" "3.1"
        (.errorResp "json obj data unvalid")).1 =
      [("10.0.0.9", { sampleEntry with err := some "Unable to poll" })] ∧
    (pollUpdate [("10.0.0.9", sampleEntry)] [] "10.0.0.9" "g9" "" "3.1"
        (.errorResp "json obj data unvalid")).1 =
      (pollUpdate [("10.0.0.9", sampleEntry)] [] "10.0.0.9" "g9" "" "3.1"
        (.errorResp "devid not found")).1 := by
  decide

/-- Claim C5 (amended): an invoked status poll has three source-level
outcomes, two of which coincide on the registry: a reply containing `dps` is
attached whole as the entry's status; any other structured reply — an
`Error` response included — and any raised exception both attach the same
generic marker `"Unable to poll"`. In every case only the polled entry is
touched, the collaborator call is logged, and the loop goes on to process
the remaining outcomes. -/
theorem claim5_poll_outcomes :
    (∀ (d : Registry) (polls : List PollCall) (ip gwId dkey vers : String)
        (reply : StatusReply) (e : DeviceEntry), (ip, e) ∈ d →
      (∀ s, reply = .withDps s →
        (ip, { e with dps := some s }) ∈
          (pollUpdate d polls ip gwId dkey vers reply).1) ∧
      ((∀ s, reply ≠ .withDps s) →
        (ip, { e with err := some "Unable to poll" }) ∈
          (pollUpdate d polls ip gwId dkey vers reply).1) ∧
      (∀ (k : String) (e' : DeviceEntry), k ≠ ip →
        ((k, e') ∈ d ↔ (k, e') ∈ (pollUpdate d polls ip gwId dkey vers reply).1)) ∧
      (pollUpdate d polls ip gwId dkey vers reply).2 =
        polls ++ [⟨ip, gwId, dkey, vers⟩]) ∧
    (∀ (cfg : ScanConfig) (st : ScanState) (srcIp : String)
        (parse : ParseOutcome) (reply : StatusReply) (rest : List RecvOutcome),
      st.count + st.counts ≤ cfg.maxretry →
      (scanLoop cfg st (.packet srcIp parse reply :: rest)).exitKind =
        (scanLoop cfg (processPacket cfg st srcIp parse reply).2 rest).exitKind) := by
  constructor
  · intro d polls ip gwId dkey vers reply e he
    refine ⟨?_, ?_, ?_, pollUpdate_polls d polls ip gwId dkey vers reply⟩
    · intro s hs
      subst hs
      simp only [pollUpdate]
      exact updateEntry_mem_self d ip _ e he
    · intro hns
      cases reply with
      | withDps s => exact absurd rfl (hns s)
      | errorResp m =>
        simp only [pollUpdate]
        exact updateEntry_mem_self d ip _ e he
      | other =>
        simp only [pollUpdate]
        exact updateEntry_mem_self d ip _ e he
      | raises =>
        simp only [pollUpdate]
        exact updateEntry_mem_self d ip _ e he
    · intro k e' hk
      cases reply <;> simp only [pollUpdate] <;>
        exact (updateEntry_mem_ne d ip k _ e' hk).symm
  · intro cfg st srcIp parse reply rest h
    simp [scanLoop, h]

/-- Claim C5, witness: a raised exception marks the polled entry with the
generic `"Unable to poll"` and logs the collaborator call. -/
theorem claim5_witness :
    ("10.0.0.9", { sampleEntry with err := some "Unable to poll" }) ∈
      (pollUpdate [("10.0.0.9", sampleEntry)] [] "10.0.0.9" "g9" "" "3.1"
        .raises).1 ∧
    (pollUpdate [("10.0.0.9", sampleEntry)] [] "10.0.0.9" "g9" "" "3.1"
        .raises).2 = [] ++ [⟨"10.0.0.9", "g9", "", "3.1"⟩] :=
  ⟨(claim5_poll_outcomes.1 [("10.0.0.9", sampleEntry)] [] "10.0.0.9" "g9" ""
      "3.1" .raises sampleEntry (by decide)).2.1
      (fun s h => StatusReply.noConfusion h),
   (claim5_poll_outcomes.1 [("10.0.0.9", sampleEntry)] [] "10.0.0.9" "g9" ""
      "3.1" .raises sampleEntry (by decide)).2.2.2⟩

/-- Claim C7: a datagram whose payload fails to decrypt or decode is not an
error: when its sender's IP is not yet recorded it is filed as a new entry
keyed by that IP, classified Unknown (the interpreter's Valid flag is
false), with no deviceId, productKey or version populated, and the loop
goes on to process the remaining outcomes. -/
theorem claim7_unknown_recorded (cfg : ScanConfig) (st : ScanState)
    (srcIp : String) (reply : StatusReply)
    (hfresh : srcIp ∉ st.devices.map Prod.fst) :
    (processPacket cfg st srcIp .noJson reply).1 = true ∧
    (interpret srcIp .noJson).valid = false ∧
    (∀ e, (srcIp, e) ∈ (processPacket cfg st srcIp .noJson reply).2.devices →
      e.ip = srcIp ∧ e.gwId = none ∧ e.productKey = none ∧ e.version = none) ∧
    (∃ e, (srcIp, e) ∈ (processPacket cfg st srcIp .noJson reply).2.devices) ∧
    (∀ rest, st.count + st.counts ≤ cfg.maxretry →
      (scanLoop cfg st (.packet srcIp .noJson reply :: rest)).exitKind =
        (scanLoop cfg (processPacket cfg st srcIp .noJson reply).2
          rest).exitKind) := by
  have hnew : (processPacket cfg st srcIp .noJson reply).1 = true :=
    (processPacket_isNew cfg st srcIp .noJson reply).2 hfresh
  refine ⟨hnew, rfl, ?_, ?_, fun rest h => by simp [scanLoop, h]⟩
  · intro e he
    rw [processPacket_new_state cfg st srcIp .noJson reply hnew] at he
    refine newDeviceStep_key_inv cfg _ (interpret srcIp .noJson) reply
      (fun e => e.ip = srcIp ∧ e.gwId = none ∧ e.productKey = none ∧
        e.version = none)
      (fun e s hP => hP) (fun e hP => hP) (fun _ e hP => hP)
      (fun e m hP => hP) ?_ e he
    intro e0 he0
    have heq := mem_append_fresh st.devices (regKey srcIp .noJson)
      (mkEntry (interpret srcIp .noJson)) hfresh e0 he0
    rw [heq]
    exact ⟨rfl, rfl, rfl, rfl⟩
  · have hkeys : (processPacket cfg st srcIp .noJson reply).2.devices.map
        Prod.fst = st.devices.map Prod.fst ++ [srcIp] := by
      rw [processPacket_new_state cfg st srcIp .noJson reply hnew,
        newDeviceStep_keys]
      simp [regKey, interpret]
    have hsrc : srcIp ∈
        (processPacket cfg st srcIp .noJson reply).2.devices.map Prod.fst := by
      rw [hkeys]
      simp
    rcases List.mem_map.1 hsrc with ⟨⟨k0, e0⟩, hp2, heq⟩
    exact ⟨e0, heq ▸ hp2⟩

/-- Claim C7, witness: an undecodable datagram from the unseen address
`10.0.0.8` is filed as a new entry with only its IP populated. -/
theorem claim7_witness :
    (processPacket ⟨3, true, false, [], []⟩ initState "10.0.0.8" .noJson
        .raises).1 = true ∧
    (({ ip := "10.0.0.8", gwId := none, productKey := none,
        version := none } : DeviceEntry).ip = "10.0.0.8" ∧
      ({ ip := "10.0.0.8", gwId := none, productKey := none,
         version := none } : DeviceEntry).gwId = none ∧
      ({ ip := "10.0.0.8", gwId := none, productKey := none,
         version := none } : DeviceEntry).productKey = none ∧
      ({ ip := "10.0.0.8", gwId := none, productKey := none,
         version := none } : DeviceEntry).version = none) :=
  ⟨(claim7_unknown_recorded ⟨3, true, false, [], []⟩ initState "10.0.0.8"
      .raises (by decide)).1,
   (claim7_unknown_recorded ⟨3, true, false, [], []⟩ initState "10.0.0.8"
      .raises (by decide)).2.2.1 _ (by decide)⟩

/-- Claim C9: for every newly discovered device whose identity record
resolves an empty name and a non-empty key — whatever its version — the
entry gets neither a name nor a key field (lines 386-388 gate both on the
name), yet that key is still handed to the status-poll collaborator: a
version-3.1 device is polled with it unconditionally, any other version is
polled with it because the key is non-empty. -/
theorem claim9_name_gates_key (cfg : ScanConfig) (st : ScanState)
    (srcIp : String) (parse : ParseOutcome) (reply : StatusReply)
    (hnew : (processPacket cfg st srcIp parse reply).1 = true)
    (hname : (identityLookup cfg (interpret srcIp parse).gwId).1 = "")
    (hkey : (identityLookup cfg (interpret srcIp parse).gwId).2.1 ≠ "")
    (hpoll : cfg.poll = true) :
    (∀ e, (regKey srcIp parse, e) ∈
        (processPacket cfg st srcIp parse reply).2.devices →
      e.name = none ∧ e.key = none) ∧
    (processPacket cfg st srcIp parse reply).2.polls =
      st.polls ++ [⟨(interpret srcIp parse).ip, (interpret srcIp parse).gwId,
        (identityLookup cfg (interpret srcIp parse).gwId).2.1,
        if (interpret srcIp parse).version = "3.1" then "3.1" else "3.3"⟩] := by
  have hfresh := (processPacket_isNew cfg st srcIp parse reply).1 hnew
  constructor
  · intro e he
    rw [processPacket_new_state cfg st srcIp parse reply hnew] at he
    refine newDeviceStep_key_inv cfg _ (interpret srcIp parse) reply
      (fun e => e.name = none ∧ e.key = none)
      (fun e s hP => hP) (fun e hP => hP)
      (fun hcon => absurd hname hcon)
      (fun e m hP => hP) ?_ e he
    intro e0 he0
    have heq := mem_append_fresh st.devices (regKey srcIp parse)
      (mkEntry (interpret srcIp parse)) hfresh e0 he0
    rw [heq]
    obtain ⟨hn, hk2, -, -, -⟩ := mkEntry_plain (interpret srcIp parse)
    exact ⟨hn, hk2⟩
  · rw [processPacket_new_state cfg st srcIp parse reply hnew]
    have hc := pollPhase_polls_cases cfg
      (st.devices ++ [(regKey srcIp parse, mkEntry (interpret srcIp parse))])
      st.polls (interpret srcIp parse)
      (identityLookup cfg (interpret srcIp parse).gwId).2.1 reply hpoll
    by_cases hv : (interpret srcIp parse).version = "3.1"
    · rw [if_pos hv]
      simpa [newDeviceStep] using hc.1 hv
    · rw [if_neg hv]
      simpa [newDeviceStep] using hc.2.1 hv hkey

/-- Claim C9, witness: the identity file knows device `g1` with an empty
name and key `k1`; both a version-3.1 and a version-3.3 new device get
neither name nor key attached, while `k1` is used for their polls. -/
theorem claim9_witness :
    (({ ip := "10.0.0.5", gwId := some "g1", productKey := some "p1",
        version := some "3.1", dps := some "S" } : DeviceEntry).name = none ∧
      ({ ip := "10.0.0.5", gwId := some "g1", productKey := some "p1",
         version := some "3.1", dps := some "S" } : DeviceEntry).key = none) ∧
    (processPacket ⟨3, true, true, [⟨"g1", "", "k1", none⟩], []⟩ initState
        "10.0.0.5" (.json ⟨some "10.0.0.5", some "g1", some "p1", some "3.1"⟩)
        (.withDps "S")).2.polls =
      initState.polls ++ [⟨"10.0.0.5", "g1", "k1", "3.1"⟩] ∧
    (processPacket ⟨3, true, true, [⟨"g1", "", "k1", none⟩], []⟩ initState
        "10.0.0.6" (.json ⟨some "10.0.0.6", some "g1", some "p1", some "3.3"⟩)
        (.withDps "S")).2.polls =
      initState.polls ++ [⟨"10.0.0.6", "g1", "k1", "3.3"⟩] :=
  ⟨(claim9_name_gates_key ⟨3, true, true, [⟨"g1", "", "k1", none⟩], []⟩
      initState "10.0.0.5"
      (.json ⟨some "10.0.0.5", some "g1", some "p1", some "3.1"⟩)
      (.withDps "S") (by decide) (by decide) (by decide) rfl).1
      _ (by decide),
   (claim9_name_gates_key ⟨3, true, true, [⟨"g1", "", "k1", none⟩], []⟩
      initState "10.0.0.5"
      (.json ⟨some "10.0.0.5", some "g1", some "p1", some "3.1"⟩)
      (.withDps "S") (by decide) (by decide) (by decide) rfl).2,
   (claim9_name_gates_key ⟨3, true, true, [⟨"g1", "", "k1", none⟩], []⟩
      initState "10.0.0.6"
      (.json ⟨some "10.0.0.6", some "g1", some "p1", some "3.3"⟩)
      (.withDps "S") (by decide) (by decide) (by decide) rfl).2⟩

end TinyTuyaScan
